import Mathlib

/-!
Shallow embedding of `docs/source/conf.py` from the IOServer repository.

The file is a Sphinx documentation-build configuration: a sequence of
top-level assignments of literal Python values.  We embed Python values
with an inductive `ConfValue` that also has composite constructors
(lists, pairs, mappings, None), so that claims of the form "every value
is a scalar" or "every value is a (URL, inventory-or-None) pair" are
genuine shape checks rather than typing tautologies.
-/

namespace ConfPy

/-- Python values occurring in (or representable by) the configuration
module: booleans, strings, integers, `None`, lists, tuples (pairs), and
string-keyed dictionaries. -/
inductive ConfValue where
  | bool (b : Bool)
  | str (s : String)
  | int (n : Int)
  | none
  | list (xs : List ConfValue)
  | pair (a b : ConfValue)
  | dict (entries : List (String × ConfValue))

/-- A value is a scalar when it is a boolean, a string or an integer. -/
def ConfValue.isScalar : ConfValue → Bool
  | .bool _ => true
  | .str _ => true
  | .int _ => true
  | _ => false

/-- `project = "IOServer"` (conf.py line 7). -/
def project : String := "IOServer"

/-- `copyright = "2024, Ben Mz"` (conf.py line 8). -/
def copyright : String := "2024, Ben Mz"

/-- `author = "Ben Mz"` (conf.py line 9). -/
def author : String := "Ben Mz"

/-- `release = "2.0.0"` (conf.py line 10). -/
def release : String := "2.0.0"

/-- `version = "2.0.0"` (conf.py line 11). -/
def version : String := "2.0.0"

/-- `extensions = [...]` (conf.py lines 14-20), in source order. -/
def extensions : List String :=
  [ "sphinx.ext.autodoc"
  , "sphinx.ext.viewcode"
  , "sphinx.ext.napoleon"
  , "sphinx.ext.intersphinx"
  , "myst_parser" ]

/-- `templates_path = ["_templates"]` (conf.py line 22). -/
def templates_path : List String := ["_templates"]

/-- `exclude_patterns = []` (conf.py line 23). -/
def exclude_patterns : List String := []

/-- `html_theme = "sphinx_rtd_theme"` (conf.py line 26). -/
def html_theme : String := "sphinx_rtd_theme"

/-- `html_static_path = ["_static"]` (conf.py line 27). -/
def html_static_path : List String := ["_static"]

/-- The f-string template of conf.py line 28, `f"{project} v{version}"`,
as a function of the two interpolated variables. -/
def html_title_of (p v : String) : String := p ++ " v" ++ v

/-- `html_title = f"{project} v{version}"` (conf.py line 28). -/
def html_title : String := html_title_of project version

/-- `html_theme_options = {...}` (conf.py lines 30-41), an association
list in source order; values embedded as `ConfValue`. -/
def html_theme_options : List (String × ConfValue) :=
  [ ("logo_only", .bool false)
  , ("display_version", .bool true)
  , ("prev_next_buttons_location", .str "bottom")
  , ("style_external_links", .bool false)
  , ("vcs_pageview_mode", .str "")
  , ("collapse_navigation", .bool true)
  , ("sticky_navigation", .bool true)
  , ("navigation_depth", .int 4)
  , ("includehidden", .bool true)
  , ("titles_only", .bool false) ]

/-- `myst_enable_extensions = [...]` (conf.py lines 44-54), in source
order. -/
def myst_enable_extensions : List String :=
  [ "colon_fence"
  , "deflist"
  , "html_admonition"
  , "html_image"
  , "linkify"
  , "replacements"
  , "smartquotes"
  , "substitution"
  , "tasklist" ]

/-- `intersphinx_mapping = {"python": ("https://docs.python.org/3/", None)}`
(conf.py lines 57-59); the tuple value embedded as a `ConfValue` pair. -/
def intersphinx_mapping : List (String × ConfValue) :=
  [ ("python", .pair (.str "https://docs.python.org/3/") .none) ]

/-- A value has intersphinx-entry shape when it is a pair whose first
component is a string (a base URL) and whose second component is either
`None` or a string (an inventory path). -/
def ConfValue.isIntersphinxEntry : ConfValue → Bool
  | .pair (.str _) .none => true
  | .pair (.str _) (.str _) => true
  | _ => false

/-- The environment a Python module evaluation could in principle observe:
process environment variables, command-line arguments, and a file store. -/
structure Env where
  envVars : String → Option String
  argv : List String
  fileStore : String → Option String

/-- The complete sequence of top-level configuration assignments of
conf.py, in source order, as name/value pairs.  The module body consists
only of literal assignments (and two unused imports), so evaluation does
not consult the environment: the result is the same for every `Env`. -/
def evalConfig (_e : Env) : List (String × ConfValue) :=
  [ ("project", .str project)
  , ("copyright", .str copyright)
  , ("author", .str author)
  , ("release", .str release)
  , ("version", .str version)
  , ("extensions", .list (extensions.map .str))
  , ("templates_path", .list (templates_path.map .str))
  , ("exclude_patterns", .list (exclude_patterns.map .str))
  , ("html_theme", .str html_theme)
  , ("html_static_path", .list (html_static_path.map .str))
  , ("html_title", .str html_title)
  , ("html_theme_options", .dict html_theme_options)
  , ("myst_enable_extensions", .list (myst_enable_extensions.map .str))
  , ("intersphinx_mapping", .dict intersphinx_mapping) ]

end ConfPy

open ConfPy

/-- C1: the configuration defines the project-metadata options with the
expected literal string values: `project = "IOServer"`,
`copyright = "2024, Ben Mz"`, `author = "Ben Mz"`, `release = "2.0.0"`,
`version = "2.0.0"`, each a plain string assigned exactly once (each
occurs exactly once among the module's top-level assignments, with a
string value). -/
theorem c1_project_metadata :
    project = "IOServer" ∧
    copyright = "2024, Ben Mz" ∧
    author = "Ben Mz" ∧
    release = "2.0.0" ∧
    version = "2.0.0" ∧
    ∀ e : Env,
      ((evalConfig e).filter (fun kv => kv.1 == "project")
        = [("project", .str "IOServer")]) ∧
      ((evalConfig e).filter (fun kv => kv.1 == "copyright")
        = [("copyright", .str "2024, Ben Mz")]) ∧
      ((evalConfig e).filter (fun kv => kv.1 == "author")
        = [("author", .str "Ben Mz")]) ∧
      ((evalConfig e).filter (fun kv => kv.1 == "release")
        = [("release", .str "2.0.0")]) ∧
      ((evalConfig e).filter (fun kv => kv.1 == "version")
        = [("version", .str "2.0.0")]) := by
  refine ⟨rfl, rfl, rfl, rfl, rfl, fun e => ?_⟩
  exact ⟨rfl, rfl, rfl, rfl, rfl⟩

/-- C2: in both mappings defined by the configuration
(`html_theme_options` and `intersphinx_mapping`) every key is a string —
they are association lists keyed by `String` — and no key occurs more
than once. -/
theorem c2_mapping_keys_unique :
    (html_theme_options.map Prod.fst).Nodup ∧
    (intersphinx_mapping.map Prod.fst).Nodup := by
  constructor <;> decide

/-- C3: every value of `html_theme_options` is a scalar (a boolean, a
string or an integer); none is a list, mapping, `None` or other
composite. -/
theorem c3_theme_values_scalar :
    ∀ kv ∈ html_theme_options, kv.2.isScalar = true :=
  List.all_eq_true.mp rfl

/-- Witness for C3 at the first entry of `html_theme_options`. -/
theorem c3_theme_values_scalar_witness :
    ("logo_only", ConfValue.bool false) ∈ html_theme_options ∧
    ("logo_only", ConfValue.bool false).2.isScalar = true :=
  ⟨List.mem_cons_self _ _,
   c3_theme_values_scalar ("logo_only", ConfValue.bool false)
     (List.mem_cons_self _ _)⟩

/-- C4: every entry of `intersphinx_mapping` maps a namespace name to a
pair of a base-URL string and an inventory path that is a string or
`None`; and the mapping consists of the sole entry sending `"python"` to
`("https://docs.python.org/3/", None)`. -/
theorem c4_intersphinx_shape :
    (∀ kv ∈ intersphinx_mapping, kv.2.isIntersphinxEntry = true) ∧
    intersphinx_mapping
      = [("python", .pair (.str "https://docs.python.org/3/") .none)] :=
  ⟨List.all_eq_true.mp rfl, rfl⟩

/-- C5: `extensions` and `myst_enable_extensions` are each an ordered
list of identifier strings in which every element is non-empty and no
identifier is duplicated. -/
theorem c5_extension_lists_wellformed :
    (∀ s ∈ extensions, s ≠ "") ∧ extensions.Nodup ∧
    (∀ s ∈ myst_enable_extensions, s ≠ "") ∧ myst_enable_extensions.Nodup := by
  refine ⟨?_, ?_, ?_, ?_⟩ <;> decide

/-- C6: `templates_path` and `exclude_patterns` are lists of path
strings; `templates_path` is the singleton `["_templates"]` and
`exclude_patterns` is the empty list. -/
theorem c6_path_lists :
    templates_path = ["_templates"] ∧ exclude_patterns = ([] : List String) :=
  ⟨rfl, rfl⟩

/-- C7: evaluating the configuration module is deterministic and
independent of its environment: for any two environments (differing in
environment variables, command-line arguments or file store), every
configuration value produced is identical. -/
theorem c7_environment_independence :
    ∀ e₁ e₂ : Env, evalConfig e₁ = evalConfig e₂ := by
  intro e₁ e₂
  rfl

/-- C8: `html_title` is derived from the other metadata rather than
being an independent literal: for all values of the interpolated
variables the f-string template yields `p ++ " v" ++ v`, `html_title` is
the template applied to `project` and `version`, and at the actual
values it equals `"IOServer v2.0.0"`. -/
theorem c8_html_title_derived :
    (∀ p v : String, html_title_of p v = p ++ " v" ++ v) ∧
    html_title = html_title_of project version ∧
    html_title = "IOServer v2.0.0" :=
  ⟨fun _ _ => rfl, rfl, rfl⟩

/-- C9: the `version` and `release` options are equal, both being the
string `"2.0.0"`. -/
theorem c9_version_eq_release :
    version = release ∧ version = "2.0.0" :=
  ⟨rfl, rfl⟩

/-- C10: every feature-configuration option present has its consuming
plugin activated: `"myst_parser"` and `"sphinx.ext.intersphinx"` are
members of the `extensions` list, and `html_theme` is
`"sphinx_rtd_theme"`. -/
theorem c10_consumers_activated :
    "myst_parser" ∈ extensions ∧
    "sphinx.ext.intersphinx" ∈ extensions ∧
    html_theme = "sphinx_rtd_theme" := by
  refine ⟨?_, ?_, rfl⟩ <;> decide
